import Mathlib

/-!
Shallow embedding of the Sauce Labs MCP server (package `sauce_api_mcp`,
file `src/sauce_api_mcp/main.py`) for the parts exercised by the claims:
the transport normalizer `sauce_api_call`, the endpoint method `get_team`,
the asset helper `get_asset_url`, and the HAR filtering machinery
(`filter_har_data`, `get_network_har_file`, `_should_include_entry`,
`_matches_category`) together with the in-memory HAR cache.

Python dictionaries holding HAR documents are modelled structurally; the
one place where object identity matters — `full_har.copy()` is a SHALLOW
copy, so the nested "log" dictionary is shared between the copy and the
cached original — is modelled by computing the post-mutation document
explicitly and storing it back into the cache, exactly as the aliasing
makes the interpreter do.
-/

namespace SauceMCP

/-- Python substring test `needle in hay` on strings. -/
def pyIn (needle hay : String) : Bool :=
  decide (needle.toList <:+: hay.toList)

/-- Python `str.lower()`, as per-character ASCII case folding. -/
def str_to_lower (s : String) : String :=
  String.mk (s.data.map Char.toLower)

/-- Python truthiness of an optional string argument (None and "" are falsy). -/
def truthyStrOpt : Option String → Bool
  | some s => !s.isEmpty
  | none => false

/-- Python truthiness of an optional list argument (None and [] are falsy). -/
def truthyListOpt {α : Type} : Option (List α) → Bool
  | some l => !l.isEmpty
  | none => false

/-- One element of `entry["response"]["headers"]`: a name/value pair. -/
structure Header where
  name : String
  value : String
deriving DecidableEq

/-- A HAR entry, with the fields the filtering code reads (each read in the
source goes through `.get` with a default, so a missing key corresponds to
the default value here: "" for strings, 0 for numbers, [] for lists). -/
structure Entry where
  url : String
  resourceType : String
  status : Int
  time : Int
  responseHeaders : List Header
deriving DecidableEq

/-- Domain substrings for the "analytics" category (main.py lines 682-687). -/
def analytics_domains : List String :=
  ["google-analytics", "googletagmanager", "gtag", "facebook.com/tr",
   "scorecardresearch", "comscore", "adobe.com", "omniture", "chartbeat",
   "hotjar", "mixpanel", "amplitude", "segment", "analytics", "tracking",
   "stackadapt", "doubleclick", "googlesyndication", "amazon-adsystem"]

/-- Domain substrings for the "social" category (main.py lines 691-694). -/
def social_domains : List String :=
  ["facebook.com", "twitter.com", "instagram.com", "linkedin.com",
   "pinterest.com", "snapchat.com", "tiktok.com", "youtube.com",
   "fb.com", "t.co", "linkedin", "pinterest", "snapchat", "tiktok"]

/-- `_matches_category` (main.py lines 675-734): check whether an entry
matches a predefined filter category. `url`, `resource_type` and
`status_code` arrive precomputed from the caller, as in the source. -/
def matches_category (entry : Entry) (category url resource_type : String)
    (status_code : Int) : Bool :=
  let time_total := entry.time
  if category == "analytics" then
    analytics_domains.any (fun d => pyIn d url)
  else if category == "social" then
    social_domains.any (fun d => pyIn d url)
  else if category == "api" then
    -- the computed main domain of the url is dead code in the source
    -- (assigned and never used), so it is omitted here
    let is_json := entry.responseHeaders.any
      (fun h => str_to_lower h.name == "content-type" && pyIn "json" (str_to_lower h.value))
    resource_type == "XHR" || resource_type == "Fetch" || is_json
  else if category == "fonts" then
    ([".woff", ".woff2", ".ttf", ".otf", ".eot"].any (fun e => pyIn e url)) ||
      (["Font", "font"].any (fun t => pyIn t resource_type))
  else if category == "images" then
    resource_type == "Image" ||
      [".jpg", ".jpeg", ".png", ".gif", ".webp", ".svg", ".ico"].any (fun e => pyIn e url)
  else if category == "scripts" then
    resource_type == "Script" || pyIn ".js" url
  else if category == "errors" then
    decide (400 ≤ status_code)
  else if category == "slow" then
    decide (1000 < time_total)
  else if category == "third-party" then
    true
  else
    false

/-- `_should_include_entry` (main.py lines 649-673): the per-entry inclusion
predicate, evaluating the status-code, resource-type and custom-domain
filters in order (each skipped when its argument is falsy), then the named
category when one was supplied. -/
def should_include_entry (entry : Entry) (filter_category : Option String)
    (custom_domains resource_types : Option (List String))
    (status_codes : Option (List Int)) : Bool :=
  let url := str_to_lower entry.url
  let resource_type := entry.resourceType
  let status_code := entry.status
  if truthyListOpt status_codes && !((status_codes.getD []).contains status_code) then
    false
  else if truthyListOpt resource_types && !((resource_types.getD []).contains resource_type) then
    false
  else if truthyListOpt custom_domains &&
      !((custom_domains.getD []).any (fun d => pyIn (str_to_lower d) url)) then
    false
  else if truthyStrOpt filter_category then
    matches_category entry (filter_category.getD "") url resource_type status_code
  else
    true

/-- `any([filter_category, custom_domains, resource_types, status_codes])`
(main.py line 553), with Python truthiness per element. -/
def any_filters (filter_category : Option String)
    (custom_domains resource_types : Option (List String))
    (status_codes : Option (List Int)) : Bool :=
  truthyStrOpt filter_category || truthyListOpt custom_domains ||
    truthyListOpt resource_types || truthyListOpt status_codes

/-- The `_filter_metadata` block (main.py lines 568-576 and 638-645).
`cache_hit` is `some true` in `filter_har_data` and `none` (key absent)
in `get_network_har_file`. -/
structure FilterMeta where
  original_request_count : Nat
  filtered_request_count : Nat
  filter_category : Option String
  custom_domains : Option (List String)
  resource_types : Option (List String)
  status_codes : Option (List Int)
  cache_hit : Option Bool
deriving DecidableEq

/-- The nested `log` dictionary of a HAR document; `entries` is `none`
when the "entries" key is absent. -/
structure LogObj where
  entries : Option (List Entry)
deriving DecidableEq

/-- A parsed HAR document (the value of `response.json()`); `log` is `none`
when the top-level "log" key is absent, and `filter_metadata` models the
optional `_filter_metadata` key. -/
structure HarDoc where
  log : Option LogObj
  filter_metadata : Option FilterMeta
deriving DecidableEq

/-- A value stored in the HAR cache: either a parsed document, or the
`{error: ...}` dictionary returned by `sauce_api_call` on failure
(main.py line 547 stores it unchanged). -/
inductive HarValue where
  | doc : HarDoc → HarValue
  | errDict : String → HarValue
deriving DecidableEq

/-- The in-memory HAR cache `self._har_cache`: job id to stored value. -/
abbrev Cache := List (String × HarValue)

/-- Dictionary lookup in the cache. -/
def cacheLookup (c : Cache) (k : String) : Option HarValue :=
  match c with
  | [] => none
  | (k2, v) :: rest => if k2 == k then some v else cacheLookup rest k

/-- Dictionary insertion (`self._har_cache[job_id] = v` for an absent key). -/
def cacheInsert (c : Cache) (k : String) (v : HarValue) : Cache :=
  (k, v) :: c

/-- In-place replacement of the value stored under an existing key,
as effected through aliasing when the cached document is mutated. -/
def cacheUpdate (c : Cache) (k : String) (v : HarValue) : Cache :=
  c.map (fun p => if p.1 == k then (k, v) else p)

/-- `full_har.get("log", {}).get("entries", [])` (main.py lines 558, 567). -/
def har_entries : HarValue → List Entry
  | .doc d =>
    match d.log with
    | some lg => lg.entries.getD []
    | none => []
  | .errDict _ => []

/-- Outcome of the network fetch a HAR retrieval would perform: either an
`httpx.Response` whose body parses to a document, or the error dictionary
produced by `sauce_api_call`. -/
inductive FetchOutcome where
  | resp : HarDoc → FetchOutcome
  | errDict : String → FetchOutcome
deriving DecidableEq

/-- Result of a Python call: a returned value or an uncaught exception. -/
inductive PyResult (α : Type) where
  | ok : α → PyResult α
  | raised : String → PyResult α
deriving DecidableEq

/-- The value returned by a HAR filtering call: either the full cached or
fetched value passed through unchanged (no filters supplied), or a
filtered document carrying its `_filter_metadata`. -/
inductive FilterReturn where
  | unfiltered : HarValue → FilterReturn
  | filtered : HarDoc → FilterReturn
deriving DecidableEq

/-- Everything observable about one `filter_har_data` call: the cache after
the call, whether the network fetch was issued, and the call result. -/
structure FilterCall where
  cache : Cache
  fetched : Bool
  result : PyResult FilterReturn
deriving DecidableEq

/-- Lines 539-547 of main.py: populate the cache on the first request for a
job id, recording whether the fetch was issued. -/
def cache_populate (cache : Cache) (fetch : FetchOutcome) (job_id : String) :
    Cache × Bool :=
  match cacheLookup cache job_id with
  | some _ => (cache, false)
  | none =>
    match fetch with
    | .resp d => (cacheInsert cache job_id (HarValue.doc d), true)
    | .errDict m => (cacheInsert cache job_id (HarValue.errDict m), true)

/-- `filter_har_data` (main.py lines 508-578). The fetch the transport
would answer on this call is passed in as `fetch`; it is consulted only
when the job id is not yet cached. The source mutates the cached document
through the shallow `full_har.copy()` — the nested "log" dictionary is
shared — so the branch that filters a cached document writes the filtered
entries back into the cache, computes `original_count` from the document
AFTER that write (line 567), and raises `KeyError` when the value under
the job id has no "log" key (line 564 on an error dictionary). -/
def filter_har_data (cache : Cache) (fetch : FetchOutcome) (job_id : String)
    (filter_category : Option String)
    (custom_domains resource_types : Option (List String))
    (status_codes : Option (List Int)) : FilterCall :=
  let populated := cache_populate cache fetch job_id
  let cache1 := populated.1
  let fetched := populated.2
  let full_har := (cacheLookup cache1 job_id).getD (HarValue.errDict "")
  if !any_filters filter_category custom_domains resource_types status_codes then
    { cache := cache1, fetched := fetched,
      result := .ok (.unfiltered full_har) }
  else
    let filtered_entries := (har_entries full_har).filter
      (fun e => should_include_entry e filter_category custom_domains resource_types status_codes)
    match full_har with
    | .errDict _ =>
      { cache := cache1, fetched := fetched, result := .raised "KeyError: log" }
    | .doc d =>
      match d.log with
      | none =>
        { cache := cache1, fetched := fetched, result := .raised "KeyError: log" }
      | some lg =>
        let lg2 : LogObj := { lg with entries := some filtered_entries }
        let d_mut : HarDoc := { d with log := some lg2 }
        let cache2 := cacheUpdate cache1 job_id (HarValue.doc d_mut)
        let original_count := (har_entries (HarValue.doc d_mut)).length
        let meta : FilterMeta :=
          { original_request_count := original_count,
            filtered_request_count := filtered_entries.length,
            filter_category := filter_category,
            custom_domains := custom_domains,
            resource_types := resource_types,
            status_codes := status_codes,
            cache_hit := some true }
        { cache := cache2, fetched := fetched,
          result := .ok (.filtered { d_mut with filter_metadata := some meta }) }

/-- `get_network_har_file` (main.py lines 580-647): same filtering and
metadata logic without the cache; the shallow-copy aliasing equally makes
`original_count` read the already-replaced entries array. -/
def get_network_har_file (fetch : FetchOutcome)
    (filter_category : Option String)
    (custom_domains resource_types : Option (List String))
    (status_codes : Option (List Int)) : PyResult FilterReturn :=
  let full_har :=
    match fetch with
    | .resp d => HarValue.doc d
    | .errDict m => HarValue.errDict m
  if !any_filters filter_category custom_domains resource_types status_codes then
    .ok (.unfiltered full_har)
  else
    let filtered_entries := (har_entries full_har).filter
      (fun e => should_include_entry e filter_category custom_domains resource_types status_codes)
    match full_har with
    | .errDict _ => .raised "KeyError: log"
    | .doc d =>
      match d.log with
      | none => .raised "KeyError: log"
      | some _ =>
        let lg2 : LogObj := { entries := some filtered_entries }
        let d_mut : HarDoc := { d with log := some lg2 }
        let original_count := (har_entries (HarValue.doc d_mut)).length
        let meta : FilterMeta :=
          { original_request_count := original_count,
            filtered_request_count := filtered_entries.length,
            filter_category := filter_category,
            custom_domains := custom_domains,
            resource_types := resource_types,
            status_codes := status_codes,
            cache_hit := none }
        .ok (.filtered { d_mut with filter_metadata := some meta })

/-- The event the underlying `httpx` transport produces for one request:
a completed HTTP response (status code and body text), a network failure
(`httpx.RequestError`), or any other unexpected exception. -/
inductive TransportEvent where
  | response : Nat → String → TransportEvent
  | requestError : String → TransportEvent
  | unexpectedError : String → TransportEvent
deriving DecidableEq

/-- What `sauce_api_call` hands back to its caller: the raw `httpx.Response`
object (status code and body text), or the `{error: ...}` dictionary. -/
inductive ApiResult where
  | resp : Nat → String → ApiResult
  | errorDict : String → ApiResult
deriving DecidableEq

/-- `httpx.Response.raise_for_status` raises `HTTPStatusError` exactly for
4xx and 5xx status codes. -/
def is_http_error (status : Nat) : Bool :=
  400 ≤ status && status ≤ 599

/-- `sauce_api_call` (main.py lines 111-176): issue one request, return the
response on success, pass 404 and 500 responses through raw, and convert
every other HTTP error, every network failure and every unexpected
exception into an `{error: ...}` dictionary. Totality of this function is
the never-raises guarantee: every branch of the `try` is covered by a
handler that returns a value. -/
def sauce_api_call (relative_endpoint : String) (ev : TransportEvent) : ApiResult :=
  match ev with
  | .response status text =>
    if is_http_error status then
      if status == 404 || status == 500 then
        .resp status text
      else
        .errorDict ("Failed to retrieve from " ++ relative_endpoint ++ ": "
          ++ toString status ++ " - " ++ text)
    else
      .resp status text
  | .requestError m =>
    .errorDict ("Network error while fetching data from " ++ relative_endpoint ++ ": " ++ m)
  | .unexpectedError m =>
    .errorDict ("An unexpected error occurred from " ++ relative_endpoint ++ ": " ++ m)

/-- Whether an `ApiResult` is the error dictionary (carries the "error" key). -/
def has_error_key : ApiResult → Bool
  | .errorDict _ => true
  | .resp _ _ => false

/-- The enriched diagnostic dictionary `get_team` builds for a 404
(main.py lines 245-258). -/
structure TeamNotFound where
  error : String
  team_id : String
  possible_reasons : List String
  suggestions : List String
deriving DecidableEq

/-- The value `get_team` returns: the 404 diagnostic dictionary, or the
parsed JSON body of the response. -/
inductive GetTeamReturn where
  | notFound : TeamNotFound → GetTeamReturn
  | json : String → GetTeamReturn
deriving DecidableEq

/-- `get_team` (main.py lines 237-259): fetch the team and special-case 404.
The source immediately reads `response.status_code`; when `sauce_api_call`
returned an error dictionary instead of a response object, that attribute
access raises `AttributeError`. -/
def get_team (id : String) (api : ApiResult) : PyResult GetTeamReturn :=
  match api with
  | .errorDict _ =>
    .raised "AttributeError: dict object has no attribute status_code"
  | .resp status text =>
    if status == 404 then
      .ok (.notFound
        { error := "Team not found: " ++ id,
          team_id := id,
          possible_reasons :=
            ["Team ID does not exist",
             "Team has been deleted",
             "Insufficient permissions to access this team"],
          suggestions :=
            ["Use lookup_teams to find available teams",
             "Verify team ID is correct",
             "Check your organization permissions"] })
    else
      .ok (.json text)

/-- A value in the asset manifest returned by `get_test_assets`: a string
URL fragment, or some non-string JSON value (payload: its Python type name). -/
inductive AssetVal where
  | str : String → AssetVal
  | nonString : String → AssetVal
deriving DecidableEq

/-- The asset manifest: asset key to value, in insertion order. -/
abbrev AssetManifest := List (String × AssetVal)

/-- Dictionary `.get` on the manifest. -/
def manifest_get (al : AssetManifest) (k : String) : Option AssetVal :=
  match al with
  | [] => none
  | (k2, v) :: rest => if k2 == k then some v else manifest_get rest k

/-- `list(asset_list.keys())`. -/
def manifest_keys (al : AssetManifest) : List String :=
  al.map (fun p => p.1)

/-- Python repr of a list of strings, as interpolated into the error
message: `[\x27a\x27, \x27b\x27]`. -/
def render_keys (ks : List String) : String :=
  "[" ++ String.intercalate ", " (ks.map (fun k => "\x27" ++ k ++ "\x27")) ++ "]"

/-- Outcome of the `get_test_assets` call `get_asset_url` starts with:
the parsed manifest dictionary, or an `{error: ...}` dictionary. -/
inductive AssetsResult where
  | manifest : AssetManifest → AssetsResult
  | errDict : String → AssetsResult
deriving DecidableEq

/-- `get_asset_url` (main.py lines 415-428): resolve an asset key to a
relative URL, raising `ValueError` when the prior call failed, when the
key is absent from the manifest, or when its value is not a string. -/
def get_asset_url (username job_id : String) (assets : AssetsResult)
    (asset_key : String) : PyResult String :=
  match assets with
  | .errDict m => .raised ("ValueError: Cannot get asset URL: " ++ m)
  | .manifest al =>
    match manifest_get al asset_key with
    | none =>
      .raised ("ValueError: Asset \x27" ++ asset_key ++ "\x27 not found in job "
        ++ job_id ++ ". Available assets: " ++ render_keys (manifest_keys al))
    | some (.str u) =>
      .ok ("rest/v1/" ++ username ++ "/jobs/" ++ job_id ++ "/assets/" ++ u)
    | some (.nonString ty) =>
      .raised ("ValueError: Asset must be string, " ++ asset_key ++ " is type " ++ ty)

/-- Spec-side reading of the status-code filter, for comparison with the
source predicate: a supplied (truthy) filter requires membership, an
omitted filter imposes no constraint. -/
def spec_passes_status (e : Entry) (status_codes : Option (List Int)) : Bool :=
  !truthyListOpt status_codes || (status_codes.getD []).contains e.status

/-- Spec-side reading of the resource-type filter. -/
def spec_passes_resource (e : Entry) (resource_types : Option (List String)) : Bool :=
  !truthyListOpt resource_types || (resource_types.getD []).contains e.resourceType

/-- Spec-side reading of the custom-domain substring filter. -/
def spec_passes_domains (e : Entry) (custom_domains : Option (List String)) : Bool :=
  !truthyListOpt custom_domains ||
    (custom_domains.getD []).any (fun d => pyIn (str_to_lower d) (str_to_lower e.url))

/-- Spec-side reading of the named-category filter. -/
def spec_passes_category (e : Entry) (filter_category : Option String) : Bool :=
  !truthyStrOpt filter_category ||
    matches_category e (filter_category.getD "") (str_to_lower e.url) e.resourceType e.status

/-- A sample HAR entry answering with HTTP 200. -/
def entry200 : Entry :=
  { url := "https://ex.com/a", resourceType := "Document", status := 200,
    time := 50, responseHeaders := [] }

/-- A sample HAR entry answering with HTTP 404. -/
def entry404 : Entry :=
  { url := "https://ex.com/b", resourceType := "XHR", status := 404,
    time := 70, responseHeaders := [] }

/-- A sample HAR document holding the two entries above. -/
def sample_doc : HarDoc :=
  { log := some { entries := some [entry200, entry404] }, filter_metadata := none }

theorem if_chain_eq_conj (A a B b C c D m : Bool) :
    (if A && !a then false
     else if B && !b then false
     else if C && !c then false
     else if D then m else true) =
    ((!A || a) && ((!B || b) && ((!C || c) && (!D || m)))) := by
  cases A <;> cases a <;> cases B <;> cases b <;> cases C <;> cases c <;>
    cases D <;> cases m <;> rfl

/-- C1: refuted on the code. `full_har.copy()` at main.py line 563 is a
shallow copy, so the assignment at line 564 replaces the entries array of
the CACHED document as well: after one filtering call the cache holds the
filtered document, not the fetched original. -/
theorem filter_har_data_mutates_cached_document :
    (filter_har_data [] (.resp sample_doc) "job1" none none none (some [404])).cache =
      [("job1", HarValue.doc
        { log := some { entries := some [entry404] }, filter_metadata := none })] ∧
    (filter_har_data [] (.resp sample_doc) "job1" none none none (some [404])).cache ≠
      [("job1", HarValue.doc sample_doc)] := by
  decide

/-- C2: refuted on the code. Two successive calls for the same job fetch
only once (first conjunct pair), but because the first call mutated the
cached entries array, the second call filters the already-filtered set:
with criteria status 404 then status 200 it returns no entries, while
applying status 200 to the original document keeps the 200 entry. -/
theorem filter_har_data_second_call_uses_mutated_cache :
    (filter_har_data [] (.resp sample_doc) "job1" none none none (some [404])).fetched = true ∧
    (filter_har_data
        (filter_har_data [] (.resp sample_doc) "job1" none none none (some [404])).cache
        (.resp sample_doc) "job1" none none none (some [200])).fetched = false ∧
    (filter_har_data
        (filter_har_data [] (.resp sample_doc) "job1" none none none (some [404])).cache
        (.resp sample_doc) "job1" none none none (some [200])).result =
      .ok (.filtered
        { log := some { entries := some [] },
          filter_metadata := some
            { original_request_count := 0, filtered_request_count := 0,
              filter_category := none, custom_domains := none,
              resource_types := none, status_codes := some [200],
              cache_hit := some true } }) ∧
    [entry200, entry404].filter
        (fun e => should_include_entry e none none none (some [200])) = [entry200] := by
  decide

/-- C3: refuted on the code. `original_count` is computed at main.py line
567 (and 637) from `full_har` AFTER the shared entries array has been
replaced, so the metadata reports the filtered count in both fields: on a
two-entry document filtered down to one entry, `original_request_count`
is 1, not 2. -/
theorem get_network_har_file_original_count_equals_filtered :
    (har_entries (HarValue.doc sample_doc)).length = 2 ∧
    get_network_har_file (.resp sample_doc) none none none (some [404]) =
      .ok (.filtered
        { log := some { entries := some [entry404] },
          filter_metadata := some
            { original_request_count := 1, filtered_request_count := 1,
              filter_category := none, custom_domains := none,
              resource_types := none, status_codes := some [404],
              cache_hit := none } }) := by
  decide

/-- C4: for every HTTP error status, `sauce_api_call` passes 404 and 500
responses through as raw response objects and turns every other HTTP
error status, every network failure and every unexpected exception into
an error dictionary; being a total function it never raises. -/
theorem sauce_api_call_classification (endpoint text m : String) (s : Nat)
    (h : is_http_error s = true) :
    sauce_api_call endpoint (.response 404 text) = .resp 404 text ∧
    sauce_api_call endpoint (.response 500 text) = .resp 500 text ∧
    (s ≠ 404 → s ≠ 500 →
      has_error_key (sauce_api_call endpoint (.response s text)) = true) ∧
    has_error_key (sauce_api_call endpoint (.requestError m)) = true ∧
    has_error_key (sauce_api_call endpoint (.unexpectedError m)) = true := by
  refine ⟨rfl, rfl, ?_, rfl, rfl⟩
  intro h4 h5
  have b4 : (s == 404) = false := beq_eq_false_iff_ne.mpr h4
  have b5 : (s == 500) = false := beq_eq_false_iff_ne.mpr h5
  simp [sauce_api_call, h, b4, b5, has_error_key]

/-- Witness for C4 at status 403 and concrete strings. -/
theorem sauce_api_call_classification_witness :
    has_error_key (sauce_api_call "p" (.response 403 "t")) = true :=
  (sauce_api_call_classification "p" "t" "m" 403 (by decide)).2.2.1
    (by decide) (by decide)

/-- C5: the HAR entry filter is idempotent — filtering an entry set that
already consists only of entries passing the given criteria returns the
identical set. -/
theorem har_filter_idempotent (fc : Option String) (cd rt : Option (List String))
    (sc : Option (List Int)) (entries : List Entry)
    (h : ∀ e ∈ entries, should_include_entry e fc cd rt sc = true) :
    entries.filter (fun e => should_include_entry e fc cd rt sc) = entries := by
  exact List.filter_eq_self.mpr (by simpa using h)

/-- Witness for C5 on a concrete already-filtered entry list. -/
theorem har_filter_idempotent_witness :
    [entry404].filter (fun e => should_include_entry e none none none (some [404]))
      = [entry404] :=
  har_filter_idempotent none none none (some [404]) [entry404] (by decide)

/-- C6: an entry is included exactly when it passes every supplied filter
(omitted filters impose no constraint), and a call supplying no criteria
at all returns the full cached or fetched value unfiltered. -/
theorem should_include_entry_conj_and_passthrough (e : Entry)
    (fc : Option String) (cd rt : Option (List String)) (sc : Option (List Int))
    (cache : Cache) (fetch : FetchOutcome) (job : String) :
    (should_include_entry e fc cd rt sc =
      (spec_passes_status e sc && (spec_passes_resource e rt &&
        (spec_passes_domains e cd && spec_passes_category e fc)))) ∧
    ((filter_har_data cache fetch job none none none none).result =
      .ok (.unfiltered
        ((cacheLookup (cache_populate cache fetch job).1 job).getD
          (HarValue.errDict "")))) := by
  constructor
  · exact if_chain_eq_conj
      (truthyListOpt sc) ((sc.getD []).contains e.status)
      (truthyListOpt rt) ((rt.getD []).contains e.resourceType)
      (truthyListOpt cd) ((cd.getD []).any (fun d => pyIn (str_to_lower d) (str_to_lower e.url)))
      (truthyStrOpt fc)
      (matches_category e (fc.getD "") (str_to_lower e.url) e.resourceType e.status)
  · rfl

/-- C7: the "slow" category matches exactly the entries whose recorded
total time strictly exceeds 1000; an entry at exactly 1000 is excluded. -/
theorem matches_category_slow_strict (e : Entry) (url resource_type : String)
    (status_code : Int) :
    matches_category e "slow" url resource_type status_code = true ↔ 1000 < e.time := by
  have h : matches_category e "slow" url resource_type status_code
      = decide (1000 < e.time) := rfl
  rw [h]
  simp

/-- C8: when the asset manifest lacks the requested key, `get_asset_url`
raises a ValueError whose message names the missing key and lists the
available keys, and it returns no URL at all. -/
theorem get_asset_url_missing_key (username job_id asset_key : String)
    (al : AssetManifest) (h : manifest_get al asset_key = none) :
    get_asset_url username job_id (.manifest al) asset_key =
      .raised ("ValueError: Asset \x27" ++ asset_key ++ "\x27 not found in job "
        ++ job_id ++ ". Available assets: " ++ render_keys (manifest_keys al)) ∧
    (∀ u, get_asset_url username job_id (.manifest al) asset_key ≠ PyResult.ok u) := by
  have h1 : get_asset_url username job_id (.manifest al) asset_key =
      .raised ("ValueError: Asset \x27" ++ asset_key ++ "\x27 not found in job "
        ++ job_id ++ ". Available assets: " ++ render_keys (manifest_keys al)) := by
    simp [get_asset_url, h]
  refine ⟨h1, ?_⟩
  intro u
  rw [h1]
  intro hc
  cases hc

/-- Witness for C8 on a one-key manifest missing the requested key. -/
theorem get_asset_url_missing_key_witness :
    get_asset_url "u" "job9" (.manifest [("video.mp4", AssetVal.str "v")]) "network.har" =
      .raised ("ValueError: Asset \x27" ++ "network.har" ++ "\x27 not found in job "
        ++ "job9" ++ ". Available assets: "
        ++ render_keys (manifest_keys [("video.mp4", AssetVal.str "v")])) :=
  (get_asset_url_missing_key "u" "job9" "network.har"
    [("video.mp4", AssetVal.str "v")] (by decide)).1

/-- C9 counterexample: after a failed first fetch the error dictionary is
cached, and a subsequent call that supplies a filter criterion raises a
KeyError instead of returning a value derived from the cached error. -/
theorem filter_har_data_cached_error_counterexample :
    (filter_har_data [] (.errDict "Network error") "job2" none none none none).cache =
      [("job2", HarValue.errDict "Network error")] ∧
    (filter_har_data [("job2", HarValue.errDict "Network error")]
        (.errDict "unused") "job2" none none none (some [200])).fetched = false ∧
    (filter_har_data [("job2", HarValue.errDict "Network error")]
        (.errDict "unused") "job2" none none none (some [200])).result =
      .raised "KeyError: log" := by
  decide

/-- C9 amended: a failed first fetch stores the error dictionary in the
cache; no subsequent call for the job re-fetches or changes the cache;
a subsequent call without criteria returns the cached error dictionary,
and one with any criterion raises KeyError on the missing "log" key. -/
theorem filter_har_data_cached_error_behavior (m job : String) (fetch2 : FetchOutcome)
    (fc1 fc : Option String) (cd1 cd rt1 rt : Option (List String))
    (sc1 sc : Option (List Int)) :
    cacheLookup (filter_har_data [] (.errDict m) job fc1 cd1 rt1 sc1).cache job =
      some (HarValue.errDict m) ∧
    (filter_har_data [] (.errDict m) job fc1 cd1 rt1 sc1).fetched = true ∧
    (filter_har_data (filter_har_data [] (.errDict m) job fc1 cd1 rt1 sc1).cache
        fetch2 job fc cd rt sc).fetched = false ∧
    (filter_har_data (filter_har_data [] (.errDict m) job fc1 cd1 rt1 sc1).cache
        fetch2 job fc cd rt sc).cache =
      (filter_har_data [] (.errDict m) job fc1 cd1 rt1 sc1).cache ∧
    (any_filters fc cd rt sc = false →
      (filter_har_data (filter_har_data [] (.errDict m) job fc1 cd1 rt1 sc1).cache
          fetch2 job fc cd rt sc).result = .ok (.unfiltered (HarValue.errDict m))) ∧
    (any_filters fc cd rt sc = true →
      (filter_har_data (filter_har_data [] (.errDict m) job fc1 cd1 rt1 sc1).cache
          fetch2 job fc cd rt sc).result = .raised "KeyError: log") := by
  cases h1 : any_filters fc1 cd1 rt1 sc1 <;> cases h2 : any_filters fc cd rt sc <;>
    simp [filter_har_data, cache_populate, cacheLookup, cacheInsert, h1, h2]

/-- Witness for C9 amended, at concrete inputs with a filter supplied. -/
theorem filter_har_data_cached_error_behavior_witness :
    (filter_har_data (filter_har_data [] (.errDict "boom") "j" none none none none).cache
        (.errDict "x") "j" none none none (some [200])).result = .raised "KeyError: log" :=
  (filter_har_data_cached_error_behavior "boom" "j" (.errDict "x") none none
    none none none none none (some [200])).2.2.2.2.2 (by decide)

/-- C10: when the transport reports a network failure, `sauce_api_call`
returns an error dictionary, and `get_team` immediately dereferences
`status_code` on it, raising AttributeError instead of returning a
diagnostic value. -/
theorem get_team_network_error_raises (endpoint id m : String) :
    get_team id (sauce_api_call endpoint (.requestError m)) =
      .raised "AttributeError: dict object has no attribute status_code" := rfl

end SauceMCP
